import Mathlib

/-!
Verification of the FSM lesson code and the FSM evaluation engine
specified for the xstate-show repository.

The first part embeds, directly from the repository sources, the two
lesson transition functions of src/src/exercise/02.md and the
geoPositionReducer of src/src/exercise/01.extra-3.js.  The second part
models the generic FSM evaluation engine of the specification (candidate
selection with guards, entry/exit/transition actions, validation,
interpreter construction), which has no implementation under src/, and
instantiates it with the geoposition machine configuration embedded from
src/unnamed/part_005 and the intermediate machine of
src/src/exercise/03.md.

JavaScript idioms are modelled as follows: a thrown TypeError becomes
Except.error, `undefined`/`null` become Option.none, object spread
becomes a structure update, and string-keyed objects become association
lists that preserve definition order.
-/

namespace XStateShow

/-- Association-list lookup modelling a JavaScript string-keyed object
access: the first pair whose key equals the requested key wins. -/
def alookup {α : Type} (xs : List (String × α)) (k : String) : Option α :=
  match xs with
  | [] => none
  | (k2, v) :: rest => if k2 == k then some v else alookup rest k

theorem alookup_mem {α : Type} {xs : List (String × α)} {k : String} {v : α}
    (h : alookup xs k = some v) : (k, v) ∈ xs := by
  induction xs with
  | nil => simp [alookup] at h
  | cons p rest ih =>
    rw [alookup] at h
    by_cases hk : p.1 == k
    · rw [if_pos hk] at h
      cases h
      have : p.1 = k := by simpa using hk
      subst this
      exact List.mem_cons_self _ _
    · rw [if_neg hk] at h
      exact List.mem_cons_of_mem _ (ih h)

/-! Embedding of src/src/exercise/02.md: the lesson machine object and the
two versions of the lesson `transition` function. -/

/-- An action object of the lesson machine configuration, such as
the object with type saveData. -/
structure ActionObj where
  type : String
deriving DecidableEq

/-- A transition entry of a lesson machine (`machine.states[s].on[e]`):
a target state name and an optional list of action objects.  The
fallback object built by the transition function for an unhandled event
has no actions field, which is modelled by `none`. -/
structure NodeDef02 where
  target : String
  actions : Option (List ActionObj)
deriving DecidableEq

/-- A state node of the lesson machine: its optional `on` mapping from
event type to transition entry. -/
structure StateNode02 where
  «on» : Option (List (String × NodeDef02))
deriving DecidableEq

/-- The lesson machine object of src/src/exercise/02.md: an initial state
name and a mapping from state name to state node. -/
structure Machine02 where
  initial : String
  states : List (String × StateNode02)

/-- The component state threaded through the lesson transition functions:
a status string plus the data field written by the saveData action (the
object spread preserves it). -/
structure State02 where
  status : String
  data : Option String
deriving DecidableEq

/-- An event sent to the lesson transition functions: a type string and
the data payload read by the saveData action. -/
structure Event02 where
  type : String
  data : Option String
deriving DecidableEq

/-- The first lesson transition function (src/src/exercise/02.md lines
131-141): look up the current state node, look up the event type in its
optional `on` mapping, fall back to an object targeting the current
status, and return the state with the status replaced.  Accessing a
state name absent from `machine.states` throws in JavaScript, modelled
as Except.error. -/
def transition (machine : Machine02) (state : State02) (event : Event02) :
    Except String State02 :=
  match alookup machine.states state.status with
  | none => Except.error ("TypeError: Cannot read properties of undefined")
  | some node =>
    let nextStateNode :=
      (node.«on».bind (fun onMap => alookup onMap event.type)).getD
        { target := state.status, actions := none }
    Except.ok { state with status := nextStateNode.target }

/-- The second, action-bearing lesson transition function
(src/src/exercise/02.md lines 176-194).  It evaluates
`nextStateNode?.actions.forEach(...)`: since `nextStateNode` is never
nullish (the fallback object is supplied by `??`), the optional chain
does not protect the `actions` access, and when `actions` is absent the
`forEach` call throws a TypeError, modelled as Except.error.  The action
interpretation is the one hard-coded in the source: an action object of
type saveData writes the event data into the state. -/
def transitionA (machine : Machine02) (state : State02) (event : Event02) :
    Except String State02 :=
  match alookup machine.states state.status with
  | none => Except.error ("TypeError: Cannot read properties of undefined")
  | some node =>
    let nextStateNode :=
      (node.«on».bind (fun onMap => alookup onMap event.type)).getD
        { target := state.status, actions := none }
    let nextState : State02 := { state with status := nextStateNode.target }
    match nextStateNode.actions with
    | none =>
      Except.error ("TypeError: Cannot read properties of undefined (reading forEach)")
    | some acts =>
      Except.ok (acts.foldl
        (fun st a =>
          if a.type == ("saveData") then { st with data := event.data } else st)
        nextState)

/-- The fetch machine configuration of src/src/exercise/02.md (lines
201-215, identical in shape to lines 151-169): a loading state whose
DATA_RECEIVED transition targets success with a saveData action, and a
success state with no `on` mapping. -/
def fetchMachine : Machine02 :=
  { initial := ("loading"),
    states :=
      [(("loading"),
        { «on» := some [(("DATA_RECEIVED"),
            { target := ("success"), actions := some [{ type := ("saveData") }] })] }),
       (("success"), { «on» := none })] }

/-! Embedding of src/src/exercise/01.extra-3.js: the STATUS constants and
the geoPositionReducer. -/

/-- The STATUS constant object of src/src/exercise/01.extra-3.js. -/
structure StatusConsts where
  IDLE : String
  PENDING : String
  RESOLVED : String
  REJECTED : String

/-- The STATUS constants. -/
def STATUS : StatusConsts :=
  { IDLE := ("IDLE"), PENDING := ("PENDING"),
    RESOLVED := ("RESOLVED"), REJECTED := ("REJECTED") }

/-- The reducer state of src/src/exercise/01.extra-3.js, generic in the
position and error payload types. -/
structure GeoRedState (P E : Type) where
  status : String
  position : Option P
  error : Option E
deriving DecidableEq

/-- A reducer action: a type string and optional position and error
payloads (absent fields are `undefined`, modelled as none). -/
structure GeoRedAction (P E : Type) where
  type : String
  position : Option P := none
  error : Option E := none
deriving DecidableEq

/-- The geoPositionReducer of src/src/exercise/01.extra-3.js: a switch
on the action type handling error, success and started, whose default
branch throws an Error with an Unhandled action type message, modelled
as Except.error. -/
def geoPositionReducer {P E : Type} (state : GeoRedState P E)
    (action : GeoRedAction P E) : Except String (GeoRedState P E) :=
  if action.type == ("error") then
    Except.ok { state with status := STATUS.REJECTED, error := action.error }
  else if action.type == ("success") then
    Except.ok { state with status := STATUS.RESOLVED, position := action.position }
  else if action.type == ("started") then
    Except.ok { state with status := STATUS.PENDING }
  else
    Except.error (("Unhandled action type: ") ++ action.type)

/-! The FSM evaluation engine of the specification.  The engine itself has
no implementation under src/ (the repository uses the external xstate
library, and the lessons describe its semantics), so the definitions
below are modelled from the specification, sections 3, 4.1 and 4.2. -/

/-- Modelled from the spec: a TransitionCandidate of a state node (the
engine itself is missing from src/) — a target StateId, an optional
GuardRef and an ordered sequence of transition ActionRefs. -/
structure Candidate where
  target : String
  guard : Option String
  actions : List String
deriving DecidableEq

/-- Modelled from the spec: a StateNode (the engine itself is missing
from src/) — ordered entry and exit ActionRefs and a mapping from event
type to the ordered sequence of TransitionCandidates.  A terminal state
is one whose transitions mapping is empty. -/
structure SpecStateNode where
  entryActions : List String
  exitActions : List String
  transitions : List (String × List Candidate)
deriving DecidableEq

/-- Modelled from the spec: a MachineDefinition (the engine itself is
missing from src/) — the initial StateId, the initial context and the
mapping from StateId to StateNode. -/
structure SpecMachine (C : Type) where
  initial : String
  initialContext : C
  states : List (String × SpecStateNode)

/-- Modelled from the spec: the ActionImplementationMap and
GuardImplementationMap supplied at interpreter construction, resolving
ActionRefs to context transformers and GuardRefs to predicates over
(context, event). -/
structure ImplMaps (C Ev : Type) where
  actionImpls : List (String × (C → Ev → C))
  guardImpls : List (String × (C → Ev → Bool))

/-- Modelled from the spec: a Snapshot — the externally observable pair
of current StateId and current context. -/
structure Snapshot (C : Type) where
  state : String
  context : C
deriving DecidableEq

/-- Modelled from the spec: whether a TransitionCandidate matches the
current (context, event): absence of a guard means always true,
otherwise the resolved guard implementation is evaluated. -/
def candMatches {C Ev : Type} (gi : List (String × (C → Ev → Bool)))
    (c : C) (ev : Ev) (cand : Candidate) : Bool :=
  match cand.guard with
  | none => true
  | some g =>
    match alookup gi g with
    | some f => f c ev
    | none => false

/-- Modelled from the spec: run an ordered sequence of ActionRefs over
the context, each action seeing the context as updated by the previous
one; returns the final context together with the ordered log of the
ActionRefs actually invoked (the invocation counters of the spec's
testable properties). -/
def runActions {C Ev : Type} (ai : List (String × (C → Ev → C)))
    (names : List String) (c : C) (ev : Ev) : C × List String :=
  match names with
  | [] => (c, [])
  | n :: rest =>
    match alookup ai n with
    | some f =>
      let r := runActions ai rest (f c ev) ev
      (r.1, n :: r.2)
    | none => runActions ai rest c ev

/-- Modelled from the spec, section 4.2 `send`: look up the current
state node (unknown state: no-op), look up the candidates for the event
type (absent: unhandled no-op), select the first candidate whose guard
matches (none: unhandled no-op); a self-transition runs only the
transition actions, a cross-state transition runs exit actions of the
source, then transition actions, then entry actions of the target, and
moves to the target.  The event type is extracted by the supplied
projection, generalizing the spec's Event record with a type field.
Returns the new Snapshot and the ordered log of invoked ActionRefs. -/
def specSend {C Ev : Type} (m : SpecMachine C) (im : ImplMaps C Ev)
    (etype : Ev → String) (s : Snapshot C) (ev : Ev) :
    Snapshot C × List String :=
  match alookup m.states s.state with
  | none => (s, [])
  | some node =>
    match alookup node.transitions (etype ev) with
    | none => (s, [])
    | some cands =>
      match cands.find? (candMatches im.guardImpls s.context ev) with
      | none => (s, [])
      | some cand =>
        if cand.target == s.state then
          let r := runActions im.actionImpls cand.actions s.context ev
          ({ state := s.state, context := r.1 }, r.2)
        else
          let targetEntry :=
            match alookup m.states cand.target with
            | some tn => tn.entryActions
            | none => []
          let r1 := runActions im.actionImpls node.exitActions s.context ev
          let r2 := runActions im.actionImpls cand.actions r1.1 ev
          let r3 := runActions im.actionImpls targetEntry r2.1 ev
          ({ state := cand.target, context := r3.1 }, r1.2 ++ r2.2 ++ r3.2)

/-- The state name keys of a machine definition. -/
def stateKeysS {C : Type} (m : SpecMachine C) : List String :=
  m.states.map Prod.fst

/-- Every transition target referenced anywhere in the machine is a key
of its states mapping (the structural invariant of the spec's data
model). -/
def allTargetsValid {C : Type} (m : SpecMachine C) : Prop :=
  ∀ sn ∈ m.states, ∀ tc ∈ sn.2.transitions, ∀ cand ∈ tc.2,
    cand.target ∈ stateKeysS m

instance {C : Type} (m : SpecMachine C) : Decidable (allTargetsValid m) := by
  unfold allTargetsValid
  infer_instance

/-- Modelled from the spec, section 4.1: the ValidationError kinds. -/
inductive ValidationError where
  | unknownInitialState
  | danglingTransitionTarget (state event target : String)
  | duplicateStateId
deriving DecidableEq

/-- The first dangling transition target of a machine definition, as a
(state, event, target) triple, in definition order. -/
def firstDangling {C : Type} (m : SpecMachine C) :
    Option (String × String × String) :=
  m.states.findSome? (fun sn =>
    sn.2.transitions.findSome? (fun tc =>
      (tc.2.find? (fun cand => !(decide (cand.target ∈ stateKeysS m)))).map
        (fun cand => (sn.1, tc.1, cand.target))))

/-- Modelled from the spec, section 4.1 `validate`: fails with
UnknownInitialState if the initial state is not a key of the states
mapping, otherwise fails with the first DanglingTransitionTarget if any
transition target is not a key of the states mapping.  DuplicateStateId
is the spec's structurally-impossible case for a mapping with unique
keys and is not produced here. -/
def validate {C : Type} (m : SpecMachine C) : Except ValidationError Unit :=
  if m.initial ∈ stateKeysS m then
    match firstDangling m with
    | none => Except.ok ()
    | some (s, e, t) => Except.error (ValidationError.danglingTransitionTarget s e t)
  else Except.error ValidationError.unknownInitialState

/-- Modelled from the spec, section 4.2: the construction-time error
kinds of the Interpreter. -/
inductive ConstructError where
  | validation (e : ValidationError)
  | missingActionImplementation (ref : String)
  | missingGuardImplementation (ref : String)
deriving DecidableEq

/-- All ActionRefs referenced by a machine definition (entry, exit and
transition actions). -/
def machineActionRefs {C : Type} (m : SpecMachine C) : List String :=
  m.states.foldr
    (fun sn acc =>
      sn.2.entryActions ++ sn.2.exitActions ++
        sn.2.transitions.foldr
          (fun tc acc2 => tc.2.foldr (fun cand acc3 => cand.actions ++ acc3) acc2)
          acc)
    []

/-- All GuardRefs referenced by a machine definition. -/
def machineGuardRefs {C : Type} (m : SpecMachine C) : List String :=
  m.states.foldr
    (fun sn acc =>
      sn.2.transitions.foldr
        (fun tc acc2 =>
          tc.2.foldr
            (fun cand acc3 =>
              match cand.guard with
              | some g => g :: acc3
              | none => acc3)
            acc2)
        acc)
    []

/-- Modelled from the spec, section 4.2 construction: validate the
definition, then eagerly check that every referenced ActionRef and
GuardRef resolves in the supplied implementation maps, then set the
current state to the initial state and run the entry actions of the
initial state on the initial context (the construction-time event is
the supplied initialization event), producing the first Snapshot. -/
def interpNew {C Ev : Type} (m : SpecMachine C) (im : ImplMaps C Ev)
    (initEv : Ev) : Except ConstructError (Snapshot C) :=
  match validate m with
  | Except.error e => Except.error (ConstructError.validation e)
  | Except.ok _ =>
    match (machineActionRefs m).find? (fun r => (alookup im.actionImpls r).isNone) with
    | some r => Except.error (ConstructError.missingActionImplementation r)
    | none =>
      match (machineGuardRefs m).find? (fun r => (alookup im.guardImpls r).isNone) with
      | some r => Except.error (ConstructError.missingGuardImplementation r)
      | none =>
        match alookup m.states m.initial with
        | none => Except.error (ConstructError.validation ValidationError.unknownInitialState)
        | some node =>
          Except.ok
            { state := m.initial,
              context := (runActions im.actionImpls node.entryActions m.initialContext initEv).1 }

/-! Embedding of src/unnamed/part_005: the geoposition machine
configuration, its action implementations and the App render logic,
generic in the position and error payload types. -/

/-- The extended-state context of the geoposition machine: position and
error, both initially null. -/
structure GeoContext (P E : Type) where
  position : Option P
  error : Option E
deriving DecidableEq

/-- An event sent to the geoposition machine: a type string plus the
optional position and error payloads (absent fields are `undefined`,
modelled as none). -/
structure GeoEvent (P E : Type) where
  type : String
  position : Option P := none
  error : Option E := none
deriving DecidableEq

/-- The RESOLVE transition object of src/unnamed/part_005 lines 5-8:
target resolved, with the setPosition transition action. -/
def RESOLVE : Candidate :=
  { target := ("resolved"), guard := none, actions := [("setPosition")] }

/-- The REJECT transition object of src/unnamed/part_005 lines 10-13:
target rejected, with the setError transition action. -/
def REJECT : Candidate :=
  { target := ("rejected"), guard := none, actions := [("setError")] }

/-- A flat state node with no entry or exit actions, as used by every
state of the geoposition machines (the lessons introduce entry and exit
actions only on the trigger machine example). -/
def flatNode (ts : List (String × List Candidate)) : SpecStateNode :=
  { entryActions := [], exitActions := [], transitions := ts }

/-- The setPosition action implementation of src/unnamed/part_005:
assign writes the event position into the context position field and
nothing else. -/
def setPosition (P E : Type) : GeoContext P E → GeoEvent P E → GeoContext P E :=
  fun c ev => { c with position := ev.position }

/-- The setError action implementation of src/unnamed/part_005: assign
writes the event error into the context error field and nothing else. -/
def setError (P E : Type) : GeoContext P E → GeoEvent P E → GeoContext P E :=
  fun c ev => { c with error := ev.error }

/-- The geoPositionMachine configuration of src/unnamed/part_005 lines
15-42, in the engine's representation: initial state idle with null
position and error; idle handles START (to pending, no actions) and
REJECT_NOT_SUPPORTED (to rejectedNotSupported, no actions); pending,
resolved and rejected all handle RESOLVE and REJECT; the terminal
rejectedNotSupported state has an empty transitions mapping. -/
def geoPositionMachine (P E : Type) : SpecMachine (GeoContext P E) :=
  { initial := ("idle"),
    initialContext := { position := none, error := none },
    states :=
      [(("idle"), flatNode
          [(("START"), [{ target := ("pending"), guard := none, actions := [] }]),
           (("REJECT_NOT_SUPPORTED"),
             [{ target := ("rejectedNotSupported"), guard := none, actions := [] }])]),
       (("pending"), flatNode [(("RESOLVE"), [RESOLVE]), (("REJECT"), [REJECT])]),
       (("resolved"), flatNode [(("RESOLVE"), [RESOLVE]), (("REJECT"), [REJECT])]),
       (("rejected"), flatNode [(("RESOLVE"), [RESOLVE]), (("REJECT"), [REJECT])]),
       (("rejectedNotSupported"), flatNode [])] }

/-- The action implementation map of src/unnamed/part_005 lines 44-54
(the second argument of Machine): setPosition and setError; the machine
defines no guards. -/
def geoImpls (P E : Type) : ImplMaps (GeoContext P E) (GeoEvent P E) :=
  { actionImpls := [(("setPosition"), setPosition P E), (("setError"), setError P E)],
    guardImpls := [] }

/-- One send step of the geoposition machine under the engine: the
snapshot produced by specSend, events discriminated by their type
field. -/
def geoStep (P E : Type) (s : Snapshot (GeoContext P E)) (ev : GeoEvent P E) :
    Snapshot (GeoContext P E) :=
  (specSend (geoPositionMachine P E) (geoImpls P E) GeoEvent.type s ev).1

/-- What the App component of src/unnamed/part_005 renders. -/
inductive RenderView (P E : Type) where
  | notSupported
  | loading
  | showPosition (p : Option P)
  | showError (e : Option E)
  | nothing
deriving DecidableEq

/-- The render logic of the App component of src/unnamed/part_005 lines
79-111, as a function of the machine state value and context: the
rejectedNotSupported branch is selected on the state value alone and
reads nothing from the context; the resolved branch reads the position
and the rejected branch reads the error. -/
def App (P E : Type) (status : String) (c : GeoContext P E) : RenderView P E :=
  if status == ("rejectedNotSupported") then RenderView.notSupported
  else if status == ("idle") || status == ("pending") then RenderView.loading
  else if status == ("resolved") then RenderView.showPosition c.position
  else if status == ("rejected") then RenderView.showError c.error
  else RenderView.nothing

/-- The intermediate geoposition machine of src/src/exercise/03.md lines
44-74, which has no context and no actions: its idle state maps the
misspelled event REJECT_NOT_SUPPPORTED to the target rejectNotSupported,
while the state key is rejectedNotSupported — a dangling transition
target. -/
def geoPositionMachineMid : SpecMachine Unit :=
  { initial := ("idle"),
    initialContext := (),
    states :=
      [(("idle"), flatNode
          [(("START"), [{ target := ("pending"), guard := none, actions := [] }]),
           (("REJECT_NOT_SUPPPORTED"),
             [{ target := ("rejectNotSupported"), guard := none, actions := [] }])]),
       (("pending"), flatNode
          [(("RESOLVE"), [{ target := ("resolved"), guard := none, actions := [] }]),
           (("REJECT"), [{ target := ("rejected"), guard := none, actions := [] }])]),
       (("resolved"), flatNode
          [(("RESOLVE"), [{ target := ("resolved"), guard := none, actions := [] }]),
           (("REJECT"), [{ target := ("rejected"), guard := none, actions := [] }])]),
       (("rejected"), flatNode
          [(("RESOLVE"), [{ target := ("resolved"), guard := none, actions := [] }]),
           (("REJECT"), [{ target := ("rejected"), guard := none, actions := [] }])]),
       (("rejectedNotSupported"), flatNode [])] }

/-- A small machine exercising guarded candidate selection: in state a,
event GO has two candidates — the first guarded by isBig targeting b,
the second unguarded targeting c — and event ONLY has a single guarded
candidate, so that when its guard fails the event is unhandled. -/
def guardDemoMachine : SpecMachine Nat :=
  { initial := ("a"),
    initialContext := 0,
    states :=
      [(("a"), flatNode
          [(("GO"),
             [{ target := ("b"), guard := some ("isBig"), actions := [] },
              { target := ("c"), guard := none, actions := [] }]),
           (("ONLY"),
             [{ target := ("b"), guard := some ("isBig"), actions := [] }])]),
       (("b"), flatNode []),
       (("c"), flatNode [])] }

/-- The guard implementations for the guard demo machine: isBig holds
when the numeric context is at least ten; events are plain strings. -/
def guardDemoImpls : ImplMaps Nat String :=
  { actionImpls := [],
    guardImpls := [(("isBig"), fun c _ => decide (10 ≤ c))] }

/-! Helper lemmas about the engine. -/

/-- Every ActionRef in the invocation log of runActions comes from the
supplied list of ActionRefs. -/
theorem runActions_log_mem {C Ev : Type} (ai : List (String × (C → Ev → C)))
    (names : List String) (c : C) (ev : Ev) :
    ∀ n ∈ (runActions ai names c ev).2, n ∈ names := by
  induction names generalizing c with
  | nil =>
    intro n hn
    simp [runActions] at hn
  | cons m rest ih =>
    intro n hn
    rw [runActions] at hn
    cases halk : alookup ai m with
    | some f =>
      rw [halk] at hn
      simp only [List.mem_cons] at hn ⊢
      rcases hn with h | h
      · exact Or.inl h
      · exact Or.inr (ih (f c ev) n h)
    | none =>
      rw [halk] at hn
      exact List.mem_cons_of_mem _ (ih c n hn)

/-- A successful find? returns the first element satisfying the
predicate: the list splits at the found element and every earlier
element fails the predicate. -/
theorem find_first_split {α : Type} (p : α → Bool) (l : List α) (a : α)
    (h : l.find? p = some a) :
    p a = true ∧ ∃ l₁ l₂, l = l₁ ++ a :: l₂ ∧ ∀ b ∈ l₁, p b = false := by
  induction l with
  | nil => simp [List.find?] at h
  | cons x rest ih =>
    by_cases hx : p x
    · rw [List.find?_cons_of_pos _ hx] at h
      cases h
      exact ⟨hx, [], rest, rfl, by intro b hb; simp at hb⟩
    · rw [List.find?_cons_of_neg _ hx] at h
      obtain ⟨hpa, l₁, l₂, heq, hall⟩ := ih h
      refine ⟨hpa, x :: l₁, l₂, by rw [heq]; rfl, ?_⟩
      intro b hb
      rcases List.mem_cons.1 hb with hb | hb
      · subst hb; exact Bool.of_not_eq_true hx
      · exact hall b hb

/-- firstDangling finds nothing exactly when every transition target of
the machine is a key of its states mapping. -/
theorem firstDangling_eq_none_iff {C : Type} (m : SpecMachine C) :
    firstDangling m = none ↔ allTargetsValid m := by
  unfold firstDangling allTargetsValid
  rw [List.findSome?_eq_none_iff]
  constructor
  · intro h sn hsn tc htc cand hcand
    have h1 := h sn hsn
    rw [List.findSome?_eq_none_iff] at h1
    have h2 := h1 tc htc
    rw [Option.map_eq_none'] at h2
    rw [List.find?_eq_none] at h2
    have := h2 cand hcand
    simpa using this
  · intro h sn hsn
    rw [List.findSome?_eq_none_iff]
    intro tc htc
    rw [Option.map_eq_none', List.find?_eq_none]
    intro cand hcand
    simpa using h sn hsn tc htc cand hcand

/-! Claim theorems. -/

/-- C1: for every lesson machine, state and event such that the current
state's transitions mapping has no entry for the event's type, the first
lesson transition function is a no-op returning the state unchanged; but
the action-bearing second version is not — at the concrete unhandled
input (fetchMachine, state success, event DATA_RECEIVED) it throws a
TypeError instead of being a no-op, because the fallback node has no
actions field and the optional chain does not guard the forEach call.
The first conjunct proves the claim for the first version; the last two
conjuncts evaluate both versions at the failing input, exhibiting the
divergence of the action-bearing version from the claim. -/
theorem unhandled_event_noop_and_transitionA_bug :
    (∀ (machine : Machine02) (state : State02) (event : Event02)
       (node : StateNode02),
       alookup machine.states state.status = some node →
       node.«on».bind (fun onMap => alookup onMap event.type) = none →
       transition machine state event = Except.ok state) ∧
    transition fetchMachine { status := ("success"), data := none }
        { type := ("DATA_RECEIVED"), data := some ("42") }
      = Except.ok { status := ("success"), data := none } ∧
    transitionA fetchMachine { status := ("success"), data := none }
        { type := ("DATA_RECEIVED"), data := some ("42") }
      = Except.error ("TypeError: Cannot read properties of undefined (reading forEach)") := by
  refine ⟨?_, rfl, rfl⟩
  intro machine state event node h1 h2
  simp [transition, h1, h2]

/-- Witness for C1: the hypotheses of the universal conjunct hold at the
concrete input (fetchMachine, state success, event PING), and there the
first lesson transition function returns the state unchanged. -/
theorem unhandled_event_noop_and_transitionA_bug_witness :
    alookup fetchMachine.states ("success") = some { «on» := none } ∧
    transition fetchMachine { status := ("success"), data := none }
        { type := ("PING"), data := none }
      = Except.ok { status := ("success"), data := none } :=
  ⟨rfl,
   unhandled_event_noop_and_transitionA_bug.1 fetchMachine
     { status := ("success"), data := none } { type := ("PING"), data := none }
     { «on» := none } rfl rfl⟩

/-- C2: in the geoposition machine interpreted with the engine, from
idle with null position and error, START yields pending with the context
unchanged; then RESOLVE with position p yields resolved with the
position set to p by the setPosition action; then REJECT with error x
yields rejected with the error set to x by the setError action (and the
position kept). -/
theorem geo_scenario_start_resolve_reject (P E : Type) (p : P) (x : E) :
    geoStep P E { state := ("idle"), context := { position := none, error := none } }
        { type := ("START") }
      = { state := ("pending"), context := { position := none, error := none } } ∧
    geoStep P E { state := ("pending"), context := { position := none, error := none } }
        { type := ("RESOLVE"), position := some p }
      = { state := ("resolved"), context := { position := some p, error := none } } ∧
    geoStep P E { state := ("resolved"), context := { position := some p, error := none } }
        { type := ("REJECT"), error := some x }
      = { state := ("rejected"), context := { position := some p, error := some x } } := by
  refine ⟨rfl, rfl, rfl⟩

/-- C8: the geoPositionReducer throws an Unhandled action type error for
every state and every action whose type is none of error, success and
started; and for those three types it returns the state with status
REJECTED (recording the action error), RESOLVED (recording the action
position) and PENDING respectively. -/
theorem geoPositionReducer_cases (P E : Type) (state : GeoRedState P E)
    (action : GeoRedAction P E) :
    (action.type ≠ ("error") → action.type ≠ ("success") →
      action.type ≠ ("started") →
      geoPositionReducer state action
        = Except.error (("Unhandled action type: ") ++ action.type)) ∧
    (action.type = ("error") →
      geoPositionReducer state action
        = Except.ok { state with status := STATUS.REJECTED, error := action.error }) ∧
    (action.type = ("success") →
      geoPositionReducer state action
        = Except.ok { state with status := STATUS.RESOLVED, position := action.position }) ∧
    (action.type = ("started") →
      geoPositionReducer state action
        = Except.ok { state with status := STATUS.PENDING }) := by
  refine ⟨?_, ?_, ?_, ?_⟩
  · intro h1 h2 h3
    simp [geoPositionReducer, h1, h2, h3]
  · intro h; simp [geoPositionReducer, h]
  · intro h; simp [geoPositionReducer, h]
  · intro h; simp [geoPositionReducer, h]

/-- Witness for C8: at the concrete action type bogus the reducer
throws, and at the concrete action type started it moves to status
PENDING. -/
theorem geoPositionReducer_cases_witness :
    geoPositionReducer (P := Nat) (E := Nat)
        { status := STATUS.IDLE, position := none, error := none }
        { type := ("bogus") }
      = Except.error ("Unhandled action type: bogus") ∧
    geoPositionReducer (P := Nat) (E := Nat)
        { status := STATUS.IDLE, position := none, error := none }
        { type := ("started") }
      = Except.ok { status := STATUS.PENDING, position := none, error := none } :=
  ⟨(geoPositionReducer_cases Nat Nat
      { status := STATUS.IDLE, position := none, error := none }
      { type := ("bogus") }).1 (by decide) (by decide) (by decide),
   (geoPositionReducer_cases Nat Nat
      { status := STATUS.IDLE, position := none, error := none }
      { type := ("started") }).2.2.2 rfl⟩

/-- C3: a candidate with no guard always matches; a successful selection
picks the first candidate, in definition order, whose guard evaluates to
true on the current (context, event), every earlier candidate failing;
and when no candidate matches, send treats the event as unhandled and is
a no-op. -/
theorem first_matching_candidate_selected :
    (∀ (C Ev : Type) (gi : List (String × (C → Ev → Bool))) (c : C) (ev : Ev)
       (cand : Candidate),
       cand.guard = none → candMatches gi c ev cand = true) ∧
    (∀ (C Ev : Type) (gi : List (String × (C → Ev → Bool))) (c : C) (ev : Ev)
       (cands : List Candidate) (cand : Candidate),
       cands.find? (candMatches gi c ev) = some cand →
       candMatches gi c ev cand = true ∧
       ∃ l₁ l₂, cands = l₁ ++ cand :: l₂ ∧
         ∀ b ∈ l₁, candMatches gi c ev b = false) ∧
    (∀ (C Ev : Type) (m : SpecMachine C) (im : ImplMaps C Ev)
       (etype : Ev → String) (s : Snapshot C) (ev : Ev) (node : SpecStateNode)
       (cands : List Candidate),
       alookup m.states s.state = some node →
       alookup node.transitions (etype ev) = some cands →
       (∀ b ∈ cands, candMatches im.guardImpls s.context ev b = false) →
       specSend m im etype s ev = (s, [])) := by
  refine ⟨?_, ?_, ?_⟩
  · intro C Ev gi c ev cand h
    simp [candMatches, h]
  · intro C Ev gi c ev cands cand h
    exact find_first_split _ _ _ h
  · intro C Ev m im etype s ev node cands h1 h2 hall
    have hfind : cands.find? (candMatches im.guardImpls s.context ev) = none := by
      rw [List.find?_eq_none]
      intro b hb
      simp [hall b hb]
    simp [specSend, h1, h2, hfind]

/-- Witness for C3: in the guard demo machine with numeric context five,
the unguarded second candidate for GO matches; selection on the two GO
candidates returns that second candidate with the guarded first
candidate having failed; and the ONLY event, whose single candidate is
guarded by the failing isBig guard, is a no-op. -/
theorem first_matching_candidate_selected_witness :
    candMatches guardDemoImpls.guardImpls (5 : Nat) ("GO")
        { target := ("c"), guard := none, actions := [] } = true ∧
    (candMatches guardDemoImpls.guardImpls (5 : Nat) ("GO")
        { target := ("c"), guard := none, actions := [] } = true ∧
      ∃ l₁ l₂,
        [{ target := ("b"), guard := some ("isBig"), actions := [] },
         { target := ("c"), guard := none, actions := [] }]
          = l₁ ++ { target := ("c"), guard := none, actions := [] } :: l₂ ∧
        ∀ b ∈ l₁, candMatches guardDemoImpls.guardImpls (5 : Nat) ("GO") b = false) ∧
    specSend guardDemoMachine guardDemoImpls (fun e => e) { state := ("a"), context := 5 }
        ("ONLY")
      = ({ state := ("a"), context := 5 }, []) := by
  refine ⟨?_, ?_, ?_⟩
  · exact first_matching_candidate_selected.1 Nat String guardDemoImpls.guardImpls 5
      ("GO") { target := ("c"), guard := none, actions := [] } rfl
  · exact first_matching_candidate_selected.2.1 Nat String guardDemoImpls.guardImpls 5
      ("GO") _ _ rfl
  · exact first_matching_candidate_selected.2.2 Nat String guardDemoMachine
      guardDemoImpls (fun e => e) { state := ("a"), context := 5 } ("ONLY")
      (flatNode
        [(("GO"),
           [{ target := ("b"), guard := some ("isBig"), actions := [] },
            { target := ("c"), guard := none, actions := [] }]),
         (("ONLY"),
           [{ target := ("b"), guard := some ("isBig"), actions := [] }])])
      [{ target := ("b"), guard := some ("isBig"), actions := [] }]
      rfl rfl (by decide)

/-- C4: a state node with an empty transitions mapping is absorbing
under send — every event is a no-op leaving state and context unchanged;
in particular the terminal rejectedNotSupported state of the geoposition
machine, reached from idle via REJECT_NOT_SUPPORTED, absorbs every event
with the context untouched. -/
theorem terminal_state_absorbing :
    (∀ (C Ev : Type) (m : SpecMachine C) (im : ImplMaps C Ev)
       (etype : Ev → String) (s : Snapshot C) (ev : Ev) (node : SpecStateNode),
       alookup m.states s.state = some node →
       node.transitions = [] →
       specSend m im etype s ev = (s, [])) ∧
    (∀ (P E : Type),
       alookup (geoPositionMachine P E).states ("rejectedNotSupported")
         = some (flatNode []) ∧
       (∀ c : GeoContext P E,
         geoStep P E { state := ("idle"), context := c }
             { type := ("REJECT_NOT_SUPPORTED") }
           = { state := ("rejectedNotSupported"), context := c }) ∧
       (∀ (c : GeoContext P E) (ev : GeoEvent P E),
         geoStep P E { state := ("rejectedNotSupported"), context := c } ev
           = { state := ("rejectedNotSupported"), context := c })) := by
  constructor
  · intro C Ev m im etype s ev node h1 h2
    simp [specSend, h1, h2, alookup]
  · intro P E
    exact ⟨rfl, fun c => rfl, fun c ev => rfl⟩

/-- Witness for C4: the hypotheses of the universal conjunct hold at the
terminal rejectedNotSupported state of the geoposition machine, and
there a concrete START event is a no-op. -/
theorem terminal_state_absorbing_witness :
    specSend (geoPositionMachine Nat Nat) (geoImpls Nat Nat) GeoEvent.type
        { state := ("rejectedNotSupported"),
          context := { position := none, error := none } }
        { type := ("START") }
      = ({ state := ("rejectedNotSupported"),
           context := { position := none, error := none } }, []) :=
  terminal_state_absorbing.1 (GeoContext Nat Nat) (GeoEvent Nat Nat)
    (geoPositionMachine Nat Nat) (geoImpls Nat Nat) GeoEvent.type
    { state := ("rejectedNotSupported"),
      context := { position := none, error := none } }
    { type := ("START") } (flatNode []) rfl rfl

/-- C5: from resolved, REJECT with error x moves to rejected setting
only the error field, the position field being preserved for every
starting context; and symmetrically the setError implementation writes
only the error field and the setPosition implementation writes only the
position field, preserving the respectively other field of the
context. -/
theorem reject_updates_only_error_field (P E : Type) (c : GeoContext P E)
    (x : E) (ev : GeoEvent P E) :
    geoStep P E { state := ("resolved"), context := c }
        { type := ("REJECT"), error := some x }
      = { state := ("rejected"),
          context := { position := c.position, error := some x } } ∧
    setError P E c ev = { position := c.position, error := ev.error } ∧
    setPosition P E c ev = { position := ev.position, error := c.error } :=
  ⟨rfl, rfl, rfl⟩

/-- C6: whenever the selected candidate is a self-transition (its target
equals the current state), send keeps the state unchanged and the
invocation log is exactly that of the transition's own actions — no
entry or exit action of any state is invoked, every logged ActionRef
being one of the candidate's own transition actions. -/
theorem self_transition_runs_only_transition_actions
    {C Ev : Type} (m : SpecMachine C) (im : ImplMaps C Ev)
    (etype : Ev → String) (s : Snapshot C) (ev : Ev) (node : SpecStateNode)
    (cands : List Candidate) (cand : Candidate)
    (h1 : alookup m.states s.state = some node)
    (h2 : alookup node.transitions (etype ev) = some cands)
    (h3 : cands.find? (candMatches im.guardImpls s.context ev) = some cand)
    (h4 : cand.target = s.state) :
    (specSend m im etype s ev).1.state = s.state ∧
    (specSend m im etype s ev).2
      = (runActions im.actionImpls cand.actions s.context ev).2 ∧
    ∀ n ∈ (specSend m im etype s ev).2, n ∈ cand.actions := by
  have hsend : specSend m im etype s ev
      = ({ state := s.state,
           context := (runActions im.actionImpls cand.actions s.context ev).1 },
         (runActions im.actionImpls cand.actions s.context ev).2) := by
    simp [specSend, h1, h2, h3, h4]
  rw [hsend]
  exact ⟨rfl, rfl, runActions_log_mem _ _ _ _⟩

/-- Witness for C6: RESOLVE taken in the resolved state of the
geoposition machine is a self-transition; the state stays resolved and
the invocation log is exactly the setPosition transition action. -/
theorem self_transition_witness :
    (specSend (geoPositionMachine Nat Nat) (geoImpls Nat Nat) GeoEvent.type
        { state := ("resolved"), context := { position := none, error := none } }
        { type := ("RESOLVE"), position := some 7 }).1.state = ("resolved") ∧
    (specSend (geoPositionMachine Nat Nat) (geoImpls Nat Nat) GeoEvent.type
        { state := ("resolved"), context := { position := none, error := none } }
        { type := ("RESOLVE"), position := some 7 }).2 = [("setPosition")] := by
  have h := self_transition_runs_only_transition_actions
    (geoPositionMachine Nat Nat) (geoImpls Nat Nat) GeoEvent.type
    { state := ("resolved"), context := { position := none, error := none } }
    { type := ("RESOLVE"), position := some 7 }
    (flatNode [(("RESOLVE"), [RESOLVE]), (("REJECT"), [REJECT])])
    [RESOLVE] RESOLVE rfl rfl rfl rfl
  exact ⟨h.1, h.2.1.trans rfl⟩

/-- A machine definition violating both validation conditions at once:
its initial state ghost is not a key of its states mapping, and its only
transition targets the unknown state nowhere. -/
def badBothDef : SpecMachine Unit :=
  { initial := ("ghost"),
    initialContext := (),
    states :=
      [(("a"), flatNode
          [(("E"), [{ target := ("nowhere"), guard := none, actions := [] }])])] }

/-- Counterexample for C7: on a definition whose initial state is
unknown and which also has a dangling transition target, validate fails
with UnknownInitialState, not with DanglingTransitionTarget — so it is
not the case that validate fails with DanglingTransitionTarget exactly
when some transition target is not a key of the states mapping. -/
theorem validate_not_dangling_when_initial_also_unknown :
    firstDangling badBothDef = some ((("a"), ("E"), ("nowhere"))) ∧
    validate badBothDef = Except.error ValidationError.unknownInitialState := by
  exact ⟨rfl, rfl⟩

/-- Closure of send: when the current state is a key of the states
mapping and every transition target of the machine is a key of the
states mapping, the state of the snapshot produced by send is again a
key of the states mapping. -/
theorem specSend_state_closed {C Ev : Type} (m : SpecMachine C)
    (im : ImplMaps C Ev) (etype : Ev → String) (s : Snapshot C) (ev : Ev)
    (hs : s.state ∈ stateKeysS m) (hvalid : allTargetsValid m) :
    (specSend m im etype s ev).1.state ∈ stateKeysS m := by
  unfold specSend
  split
  · exact hs
  next node ha =>
    split
    · exact hs
    next cands hb =>
      split
      · exact hs
      next cand hc =>
        split
        · exact hs
        · exact hvalid _ (alookup_mem ha) _ (alookup_mem hb) _
            (List.mem_of_find?_eq_some hc)

/-- C7 (amended): validate fails with UnknownInitialState exactly when
the initial state is not a key of the states mapping; when the initial
state is a key, it fails with some DanglingTransitionTarget exactly when
some transition target is not a key of the states mapping, and succeeds
exactly when additionally every target is a key.  The intermediate
geoposition machine of exercise 03, whose idle state targets the
misspelled rejectNotSupported, fails validation with that dangling
target, and constructing an Interpreter from any definition failing
validation fails with the corresponding ValidationError and yields no
Interpreter. -/
theorem validate_characterization :
    (∀ (C : Type) (m : SpecMachine C),
       (validate m = Except.error ValidationError.unknownInitialState ↔
          m.initial ∉ stateKeysS m) ∧
       ((∃ s e t, validate m
            = Except.error (ValidationError.danglingTransitionTarget s e t)) ↔
          (m.initial ∈ stateKeysS m ∧ ¬ allTargetsValid m)) ∧
       (validate m = Except.ok () ↔
          (m.initial ∈ stateKeysS m ∧ allTargetsValid m))) ∧
    validate geoPositionMachineMid
      = Except.error (ValidationError.danglingTransitionTarget
          ("idle") ("REJECT_NOT_SUPPPORTED") ("rejectNotSupported")) ∧
    (∀ (C Ev : Type) (m : SpecMachine C) (im : ImplMaps C Ev) (initEv : Ev)
       (e : ValidationError),
       validate m = Except.error e →
       interpNew m im initEv = Except.error (ConstructError.validation e)) := by
  refine ⟨?_, rfl, ?_⟩
  · intro C m
    by_cases hinit : m.initial ∈ stateKeysS m
    · cases hfd : firstDangling m with
      | none =>
        have hvalid : allTargetsValid m := (firstDangling_eq_none_iff m).mp hfd
        simp [validate, hinit, hfd, hvalid]
      | some tr =>
        obtain ⟨s, e, t⟩ := tr
        have hnvalid : ¬ allTargetsValid m := by
          intro hv
          rw [← firstDangling_eq_none_iff m] at hv
          rw [hv] at hfd
          cases hfd
        constructor
        · simp [validate, hinit, hfd]
        constructor
        · simp only [validate, if_pos hinit, hfd]
          constructor
          · intro _; exact ⟨hinit, hnvalid⟩
          · intro _; exact ⟨s, e, t, rfl⟩
        · simp [validate, hinit, hfd, hnvalid]
    · constructor
      · simp [validate, hinit]
      constructor
      · simp [validate, hinit]
      · simp [validate, hinit]
  · intro C Ev m im initEv e h
    simp [interpNew, h]

/-- Witness for C7: constructing an Interpreter from the exercise 03
machine with the dangling rejectNotSupported target fails with the
corresponding validation error. -/
theorem validate_characterization_witness :
    interpNew geoPositionMachineMid
        { actionImpls := ([] : List (String × (Unit → Nat → Unit))), guardImpls := [] }
        (0 : Nat)
      = Except.error (ConstructError.validation
          (ValidationError.danglingTransitionTarget
            ("idle") ("REJECT_NOT_SUPPPORTED") ("rejectNotSupported"))) :=
  validate_characterization.2.2 Unit Nat geoPositionMachineMid
    { actionImpls := [], guardImpls := [] } 0
    (ValidationError.danglingTransitionTarget
      ("idle") ("REJECT_NOT_SUPPPORTED") ("rejectNotSupported")) rfl

/-- C9: under the structural invariant — the current state is a key of
the states mapping and every transition target of the machine is a key —
the state returned by send is again a key of the states mapping; in
particular every state reachable from idle in the geoposition machine by
any sequence of events is one of idle, pending, resolved, rejected and
rejectedNotSupported. -/
theorem machine_states_closed_under_send :
    (∀ (C Ev : Type) (m : SpecMachine C) (im : ImplMaps C Ev)
       (etype : Ev → String) (s : Snapshot C) (ev : Ev),
       s.state ∈ stateKeysS m → allTargetsValid m →
       (specSend m im etype s ev).1.state ∈ stateKeysS m) ∧
    (∀ (P E : Type) (c : GeoContext P E) (evs : List (GeoEvent P E)),
       (evs.foldl (geoStep P E) { state := ("idle"), context := c }).state
         ∈ [("idle"), ("pending"), ("resolved"), ("rejected"),
            ("rejectedNotSupported")]) := by
  constructor
  · intro C Ev m im etype s ev hs hvalid
    exact specSend_state_closed m im etype s ev hs hvalid
  · intro P E c evs
    have hvalid : allTargetsValid (geoPositionMachine P E) :=
      (firstDangling_eq_none_iff (geoPositionMachine P E)).mp rfl
    have key : ∀ (l : List (GeoEvent P E)) (s : Snapshot (GeoContext P E)),
        s.state ∈ stateKeysS (geoPositionMachine P E) →
        (l.foldl (geoStep P E) s).state ∈ stateKeysS (geoPositionMachine P E) := by
      intro l
      induction l with
      | nil => intro s hs; simpa using hs
      | cons e rest ih =>
        intro s hs
        simp only [List.foldl_cons]
        exact ih _ (specSend_state_closed _ _ _ _ _ hs hvalid)
    exact key evs { state := ("idle"), context := c } (List.Mem.head _)

/-- Witness for C9: the hypotheses of the universal conjunct hold for
the geoposition machine at the idle snapshot, and there the state
produced by a concrete START event is again a key of the states
mapping. -/
theorem machine_states_closed_under_send_witness :
    (specSend (geoPositionMachine Nat Nat) (geoImpls Nat Nat) GeoEvent.type
        { state := ("idle"), context := { position := none, error := none } }
        { type := ("START") }).1.state
      ∈ stateKeysS (geoPositionMachine Nat Nat) :=
  machine_states_closed_under_send.1 (GeoContext Nat Nat) (GeoEvent Nat Nat)
    (geoPositionMachine Nat Nat) (geoImpls Nat Nat) GeoEvent.type
    { state := ("idle"), context := { position := none, error := none } }
    { type := ("START") } (List.Mem.head _)
    ((firstDangling_eq_none_iff (geoPositionMachine Nat Nat)).mp rfl)

/-- C10: the REJECT_NOT_SUPPORTED candidate of the idle state carries no
actions, so entering rejectedNotSupported leaves the whole context
unchanged for every starting context — in particular the error field
stays null from the initial context — and the App render logic in the
rejectedNotSupported state is a constant not-supported view, independent
of the context. -/
theorem reject_not_supported_no_actions_and_render (P E : Type) :
    ((alookup (geoPositionMachine P E).states ("idle")).bind
        (fun node => alookup node.transitions ("REJECT_NOT_SUPPORTED")))
      = some [{ target := ("rejectedNotSupported"), guard := none, actions := [] }] ∧
    (∀ c : GeoContext P E,
       geoStep P E { state := ("idle"), context := c }
           { type := ("REJECT_NOT_SUPPORTED") }
         = { state := ("rejectedNotSupported"), context := c }) ∧
    geoStep P E { state := ("idle"), context := { position := none, error := none } }
        { type := ("REJECT_NOT_SUPPORTED") }
      = { state := ("rejectedNotSupported"),
          context := { position := none, error := none } } ∧
    (∀ c c2 : GeoContext P E,
       App P E ("rejectedNotSupported") c = RenderView.notSupported ∧
       App P E ("rejectedNotSupported") c = App P E ("rejectedNotSupported") c2) :=
  ⟨rfl, fun _ => rfl, rfl, fun _ _ => ⟨rfl, rfl⟩⟩

end XStateShow
